import Mathlib

/-
Verification of the RBM implementation in src/RBM_2.py.

The embedding works over exact rationals: every torch tensor becomes a
`Matrix (Fin _) (Fin _) ℚ` (or a vector `Fin _ → ℚ`), and the stochastic
uniform draws performed by `torch.rand_like` become explicit matrix
arguments (one matrix per draw site, streams `ℕ → Matrix _ _ ℚ` for the
draws made inside loops).  The mutable attributes of the Python `RBM`
object become an explicit state record threaded through the operations;
an operation that can raise (an unbound local after a zero-iteration
loop) returns an `Option`.
-/

/- The Batteries rational-number operations are `@[irreducible]`, which
blocks the evaluation `decide` performs on the concrete counterexamples and
witnesses below; make them reducible again inside this file. -/
attribute [local semireducible] Rat.mul Rat.inv Rat.add Rat.sub

namespace RBM

/-- Rectified linear unit: `torch.nn.functional.relu` applied elementwise
(src/RBM_2.py lines 92 and 111). -/
def relu (x : ℚ) : ℚ := max 0 x

/-- The mutable attributes of the Python `RBM` object (src/RBM_2.py lines
42-70): the weight matrix `W`, the hidden and visible biases, the three
momentum accumulators, the current momentum value, and the hyperparameters
that later methods read (`weight_decay`, `learning_rate`,
`learning_rate_decay`, `k`, `increase_to_cd_k`, `final_momentum`,
`batch_size`). -/
structure RBMState (nv nh : ℕ) where
  W : Matrix (Fin nv) (Fin nh) ℚ
  h_bias : Fin nh → ℚ
  v_bias : Fin nv → ℚ
  v_bias_update : Fin nv → ℚ
  h_bias_update : Fin nh → ℚ
  grad_update : Matrix (Fin nv) (Fin nh) ℚ
  momentum : ℚ
  final_momentum : ℚ
  weight_decay : ℚ
  learning_rate : ℚ
  learning_rate_decay : Bool
  k : ℕ
  increase_to_cd_k : Bool
  batch_size : ℕ

instance {nv nh : ℕ} : DecidableEq (RBMState nv nh) := fun a b =>
  decidable_of_iff
    (a.W = b.W ∧ a.h_bias = b.h_bias ∧ a.v_bias = b.v_bias ∧
      a.v_bias_update = b.v_bias_update ∧ a.h_bias_update = b.h_bias_update ∧
      a.grad_update = b.grad_update ∧ a.momentum = b.momentum ∧
      a.final_momentum = b.final_momentum ∧ a.weight_decay = b.weight_decay ∧
      a.learning_rate = b.learning_rate ∧
      a.learning_rate_decay = b.learning_rate_decay ∧ a.k = b.k ∧
      a.increase_to_cd_k = b.increase_to_cd_k ∧ a.batch_size = b.batch_size)
    (by cases a; cases b; simp [RBMState.mk.injEq])

/-- RBM.__init__ (src/RBM_2.py lines 21-70), with the randomly drawn initial
weights passed in explicitly as `W0`.  Biases and momentum accumulators start
at zero, `momentum` starts at `initial_momentum`, and `batch_size` is set to
the literal 16 (line 53). -/
def RBM_init (nv nh : ℕ) (W0 : Matrix (Fin nv) (Fin nh) ℚ) (k : ℕ)
    (learning_rate : ℚ) (learning_rate_decay : Bool) (weight_decay : ℚ)
    (initial_momentum final_momentum : ℚ) (increase_to_cd_k : Bool) :
    RBMState nv nh :=
  { W := W0
    h_bias := fun _ => 0
    v_bias := fun _ => 0
    v_bias_update := fun _ => 0
    h_bias_update := fun _ => 0
    grad_update := fun _ _ => 0
    momentum := initial_momentum
    final_momentum := final_momentum
    weight_decay := weight_decay
    learning_rate := learning_rate
    learning_rate_decay := learning_rate_decay
    k := k
    increase_to_cd_k := increase_to_cd_k
    batch_size := 16 }

/-- RBM.sampling (src/RBM_2.py lines 117-126):
`s = (prob >= torch.rand_like(prob)).float()`.  The uniform draw
`torch.rand_like(prob)` is the explicit argument `u`; each element of the
result is `1.0` when `prob i j >= u i j` and `0.0` otherwise. -/
def sampling {N M : ℕ} (prob u : Matrix (Fin N) (Fin M) ℚ) :
    Matrix (Fin N) (Fin M) ℚ :=
  fun i j => if u i j ≤ prob i j then 1 else 0

/-- RBM.to_hidden (src/RBM_2.py lines 80-96): `X_prob = relu(X @ W + h_bias)`
(the bias is broadcast across the batch rows), returned together with its
sample; `u` is the uniform draw consumed by the sampling call. -/
def to_hidden {nv nh N : ℕ} (s : RBMState nv nh)
    (X : Matrix (Fin N) (Fin nv) ℚ) (u : Matrix (Fin N) (Fin nh) ℚ) :
    Matrix (Fin N) (Fin nh) ℚ × Matrix (Fin N) (Fin nh) ℚ :=
  let X_prob : Matrix (Fin N) (Fin nh) ℚ :=
    fun i j => relu ((X * s.W) i j + s.h_bias j)
  (X_prob, sampling X_prob u)

/-- RBM.to_visible (src/RBM_2.py lines 98-115):
`X_prob = relu(X @ W.transpose(0,1) + v_bias)`, returned with its sample. -/
def to_visible {nv nh N : ℕ} (s : RBMState nv nh)
    (X : Matrix (Fin N) (Fin nh) ℚ) (u : Matrix (Fin N) (Fin nv) ℚ) :
    Matrix (Fin N) (Fin nv) ℚ × Matrix (Fin N) (Fin nv) ℚ :=
  let X_prob : Matrix (Fin N) (Fin nv) ℚ :=
    fun i j => relu ((X * s.W.transpose) i j + s.v_bias j)
  (X_prob, sampling X_prob u)

/-- One iteration of the negative-phase loop of contrastive_divergence
(src/RBM_2.py lines 170-173): from the current hidden activations, compute
`visible_probabilities` (discarding the visible sample) and then the new
hidden probabilities and activations.  `uvi`/`uhi` are the uniform draws of
this iteration's to_visible and to_hidden calls. -/
def gibbs_iteration {nv nh N : ℕ} (s : RBMState nv nh)
    (uvi : Matrix (Fin N) (Fin nv) ℚ) (uhi : Matrix (Fin N) (Fin nh) ℚ)
    (hidden_activations : Matrix (Fin N) (Fin nh) ℚ) :
    Matrix (Fin N) (Fin nv) ℚ × Matrix (Fin N) (Fin nh) ℚ × Matrix (Fin N) (Fin nh) ℚ :=
  let visible_probabilities := (to_visible s hidden_activations uvi).1
  let h := to_hidden s visible_probabilities uhi
  (visible_probabilities, h.1, h.2)

/-- The negative-phase loop run `n + 1` times (the Python loop
`for i in range(n_gibbs_sampling_steps)` with at least one iteration, the
only case in which its result variables are bound).  Returns the last
`visible_probabilities`, `hidden_probabilities` and `hidden_activations`.
`uv i` / `uh i` are the uniform draws of iteration `i`. -/
def gibbs_chain {nv nh N : ℕ} (s : RBMState nv nh)
    (uv : ℕ → Matrix (Fin N) (Fin nv) ℚ) (uh : ℕ → Matrix (Fin N) (Fin nh) ℚ)
    (h0 : Matrix (Fin N) (Fin nh) ℚ) :
    ℕ → Matrix (Fin N) (Fin nv) ℚ × Matrix (Fin N) (Fin nh) ℚ × Matrix (Fin N) (Fin nh) ℚ
  | 0 => gibbs_iteration s (uv 0) (uh 0) h0
  | n + 1 => gibbs_iteration s (uv (n + 1)) (uh (n + 1)) (gibbs_chain s uv uh h0 n).2.2

/-- Positive-phase hidden probabilities (src/RBM_2.py line 161); `uh0` is the
uniform draw of the positive-phase to_hidden call. -/
def positive_hidden_probabilities {nv nh N : ℕ} (s : RBMState nv nh)
    (input_data : Matrix (Fin N) (Fin nv) ℚ) (uh0 : Matrix (Fin N) (Fin nh) ℚ) :
    Matrix (Fin N) (Fin nh) ℚ :=
  (to_hidden s input_data uh0).1

/-- Positive-phase hidden activations (sample) (src/RBM_2.py line 161). -/
def positive_hidden_act {nv nh N : ℕ} (s : RBMState nv nh)
    (input_data : Matrix (Fin N) (Fin nv) ℚ) (uh0 : Matrix (Fin N) (Fin nh) ℚ) :
    Matrix (Fin N) (Fin nh) ℚ :=
  (to_hidden s input_data uh0).2

/-- `positive_associations = input_data.t() @ positive_hidden_probabilities`
(src/RBM_2.py lines 165-166). -/
def positive_associations {nv nh N : ℕ} (s : RBMState nv nh)
    (input_data : Matrix (Fin N) (Fin nv) ℚ) (uh0 : Matrix (Fin N) (Fin nh) ℚ) :
    Matrix (Fin nv) (Fin nh) ℚ :=
  input_data.transpose * positive_hidden_probabilities s input_data uh0

/-- The negative phase of CD-(n+1): the gibbs chain started from the
positive-phase hidden activations (src/RBM_2.py lines 169-173). -/
def negative_phase {nv nh N : ℕ} (s : RBMState nv nh)
    (input_data : Matrix (Fin N) (Fin nv) ℚ) (uh0 : Matrix (Fin N) (Fin nh) ℚ)
    (uv : ℕ → Matrix (Fin N) (Fin nv) ℚ) (uh : ℕ → Matrix (Fin N) (Fin nh) ℚ)
    (n : ℕ) :
    Matrix (Fin N) (Fin nv) ℚ × Matrix (Fin N) (Fin nh) ℚ × Matrix (Fin N) (Fin nh) ℚ :=
  gibbs_chain s uv uh (positive_hidden_act s input_data uh0) n

/-- `negative_visible_probabilities` (src/RBM_2.py line 175). -/
def negative_visible_probabilities {nv nh N : ℕ} (s : RBMState nv nh)
    (input_data : Matrix (Fin N) (Fin nv) ℚ) (uh0 : Matrix (Fin N) (Fin nh) ℚ)
    (uv : ℕ → Matrix (Fin N) (Fin nv) ℚ) (uh : ℕ → Matrix (Fin N) (Fin nh) ℚ)
    (n : ℕ) : Matrix (Fin N) (Fin nv) ℚ :=
  (negative_phase s input_data uh0 uv uh n).1

/-- `negative_hidden_probabilities` (src/RBM_2.py line 176). -/
def negative_hidden_probabilities {nv nh N : ℕ} (s : RBMState nv nh)
    (input_data : Matrix (Fin N) (Fin nv) ℚ) (uh0 : Matrix (Fin N) (Fin nh) ℚ)
    (uv : ℕ → Matrix (Fin N) (Fin nv) ℚ) (uh : ℕ → Matrix (Fin N) (Fin nh) ℚ)
    (n : ℕ) : Matrix (Fin N) (Fin nh) ℚ :=
  (negative_phase s input_data uh0 uv uh n).2.1

/-- `negative_associations = negative_visible_probabilities.t() @
negative_hidden_probabilities` (src/RBM_2.py lines 179-180). -/
def negative_associations {nv nh N : ℕ} (s : RBMState nv nh)
    (input_data : Matrix (Fin N) (Fin nv) ℚ) (uh0 : Matrix (Fin N) (Fin nh) ℚ)
    (uv : ℕ → Matrix (Fin N) (Fin nv) ℚ) (uh : ℕ → Matrix (Fin N) (Fin nh) ℚ)
    (n : ℕ) : Matrix (Fin nv) (Fin nh) ℚ :=
  (negative_visible_probabilities s input_data uh0 uv uh n).transpose *
    negative_hidden_probabilities s input_data uh0 uv uh n

/-- The `if training:` block of contrastive_divergence (src/RBM_2.py lines
183-197).  `batch_size = self.batch_size` (line 184) is the stored attribute,
not the number of rows of `input_data`.  The new accumulators are written
first and `W`, `v_bias`, `h_bias` are then incremented by them. -/
def apply_update {nv nh N : ℕ} (s : RBMState nv nh)
    (input_data : Matrix (Fin N) (Fin nv) ℚ) (lr : ℚ)
    (uh0 : Matrix (Fin N) (Fin nh) ℚ)
    (uv : ℕ → Matrix (Fin N) (Fin nv) ℚ) (uh : ℕ → Matrix (Fin N) (Fin nh) ℚ)
    (n : ℕ) : RBMState nv nh :=
  let g := positive_associations s input_data uh0 -
    negative_associations s input_data uh0 uv uh n
  let grad_update := s.momentum • s.grad_update +
    lr • (((s.batch_size : ℚ))⁻¹ • g - s.weight_decay • s.W)
  let v_bias_update := fun j => s.momentum * s.v_bias_update j +
    lr * (∑ i, (input_data i j -
      negative_visible_probabilities s input_data uh0 uv uh n i j)) / (s.batch_size : ℚ)
  let h_bias_update := fun j => s.momentum * s.h_bias_update j +
    lr * (∑ i, (positive_hidden_probabilities s input_data uh0 i j -
      negative_hidden_probabilities s input_data uh0 uv uh n i j)) / (s.batch_size : ℚ)
  { s with
    grad_update := grad_update
    v_bias_update := v_bias_update
    h_bias_update := h_bias_update
    W := s.W + grad_update
    v_bias := fun j => s.v_bias j + v_bias_update j
    h_bias := fun j => s.h_bias j + h_bias_update j }

/-- RBM.contrastive_divergence (src/RBM_2.py lines 148-203).  Returns `none`
when `n_gibbs_sampling_steps = 0` (the Python loop then leaves
`visible_probabilities` unbound and line 175 raises NameError).  Otherwise
returns `some (error, grad_magnitude, new_state)` where the error is
`torch.mean(torch.sum((input_data - negative_visible_probabilities)**2, dim=0))`
— the per-feature sums over the batch axis, averaged over the `nv` features —
and `grad_magnitude = torch.sum(torch.abs(self.grad_update))` reads the
(possibly just updated) accumulator. -/
def contrastive_divergence {nv nh N : ℕ} (s : RBMState nv nh)
    (input_data : Matrix (Fin N) (Fin nv) ℚ) (training : Bool)
    (n_gibbs_sampling_steps : ℕ) (lr : ℚ)
    (uh0 : Matrix (Fin N) (Fin nh) ℚ)
    (uv : ℕ → Matrix (Fin N) (Fin nv) ℚ) (uh : ℕ → Matrix (Fin N) (Fin nh) ℚ) :
    Option (ℚ × ℚ × RBMState nv nh) :=
  match n_gibbs_sampling_steps with
  | 0 => none
  | n + 1 =>
    let s' := if training then apply_update s input_data lr uh0 uv uh n else s
    let error := (∑ j, ∑ i, (input_data i j -
      negative_visible_probabilities s input_data uh0 uv uh n i j) ^ 2) / (nv : ℚ)
    some (error, ∑ i, ∑ j, |s'.grad_update i j|, s')

/-- RBM.reconstruction_error (src/RBM_2.py lines 128-134):
`self.contrastive_divergence(data, False)` with the defaults
`n_gibbs_sampling_steps=1` and `lr=0.001`. -/
def reconstruction_error {nv nh N : ℕ} (s : RBMState nv nh)
    (data : Matrix (Fin N) (Fin nv) ℚ)
    (uh0 : Matrix (Fin N) (Fin nh) ℚ)
    (uv : ℕ → Matrix (Fin N) (Fin nv) ℚ) (uh : ℕ → Matrix (Fin N) (Fin nh) ℚ) :
    Option (ℚ × ℚ × RBMState nv nh) :=
  contrastive_divergence s data false 1 (1 / 1000) uh0 uv uh

/-- One iteration of RBM.reconstruct's loop (src/RBM_2.py lines 143-145):
`prob_h_, h = to_hidden(v); prob_v_, v = to_visible(prob_h_)` — to_visible is
applied to the hidden probabilities, and the next iteration starts from the
visible sample. -/
def reconstruct_iteration {nv nh N : ℕ} (s : RBMState nv nh)
    (uvi : Matrix (Fin N) (Fin nv) ℚ) (uhi : Matrix (Fin N) (Fin nh) ℚ)
    (v : Matrix (Fin N) (Fin nv) ℚ) :
    Matrix (Fin N) (Fin nv) ℚ × Matrix (Fin N) (Fin nv) ℚ :=
  let prob_h := (to_hidden s v uhi).1
  to_visible s prob_h uvi

/-- RBM.reconstruct's loop run `n + 1` times, returning the final
`(prob_v_, v)`. -/
def reconstruct_chain {nv nh N : ℕ} (s : RBMState nv nh)
    (uv : ℕ → Matrix (Fin N) (Fin nv) ℚ) (uh : ℕ → Matrix (Fin N) (Fin nh) ℚ)
    (X : Matrix (Fin N) (Fin nv) ℚ) :
    ℕ → Matrix (Fin N) (Fin nv) ℚ × Matrix (Fin N) (Fin nv) ℚ
  | 0 => reconstruct_iteration s (uv 0) (uh 0) X
  | n + 1 => reconstruct_iteration s (uv (n + 1)) (uh (n + 1))
      (reconstruct_chain s uv uh X n).2

/-- RBM.reconstruct (src/RBM_2.py lines 136-146).  With `n_gibbs = 0` the loop
body never runs, `prob_v_` and the final `v` are never bound, and line 146
raises NameError — modelled as `none`.  The method only calls to_hidden and
to_visible, which read but never assign the model attributes, so no state is
returned. -/
def reconstruct {nv nh N : ℕ} (s : RBMState nv nh)
    (X : Matrix (Fin N) (Fin nv) ℚ)
    (uv : ℕ → Matrix (Fin N) (Fin nv) ℚ) (uh : ℕ → Matrix (Fin N) (Fin nh) ℚ)
    (n_gibbs : ℕ) :
    Option (Matrix (Fin N) (Fin nv) ℚ × Matrix (Fin N) (Fin nv) ℚ) :=
  match n_gibbs with
  | 0 => none
  | n + 1 => some (reconstruct_chain s uv uh X n)

/-- The Gibbs-step count derived at the top of RBM.step (src/RBM_2.py lines
220-224): `int(math.ceil((epoch / num_epochs) * self.k))` when
`increase_to_cd_k` is set, else `self.k`.  Python's float division and ceil
are modelled by exact rational division and `Int.ceil`; `int()` of the
(nonnegative) ceiling is `Int.toNat`. -/
def gibbsStepCount (increase_to_cd_k : Bool) (k epoch num_epochs : ℕ) : ℕ :=
  if increase_to_cd_k then
    (Int.ceil (((epoch : ℚ) / (num_epochs : ℚ)) * (k : ℚ))).toNat
  else k

/-- The learning rate derived in RBM.step (src/RBM_2.py lines 226-229):
`self.learning_rate / epoch` when `learning_rate_decay` is set, else
`self.learning_rate`. -/
def stepLR {nv nh : ℕ} (s : RBMState nv nh) (epoch : ℕ) : ℚ :=
  if s.learning_rate_decay then s.learning_rate / (epoch : ℚ) else s.learning_rate

/-- The momentum mutation in RBM.step (src/RBM_2.py lines 231-232): when
`epoch > 5`, `self.momentum = self.final_momentum` before the
contrastive-divergence call; otherwise the state is untouched. -/
def stepState {nv nh : ℕ} (s : RBMState nv nh) (epoch : ℕ) : RBMState nv nh :=
  if 5 < epoch then { s with momentum := s.final_momentum } else s

/-- The momentum value that the accumulator blends of the
contrastive-divergence call issued by RBM.step at `epoch` read (the
`self.momentum` factor of src/RBM_2.py lines 187-193, after the line 231-232
mutation). -/
def stepMomentumUsed {nv nh : ℕ} (s : RBMState nv nh) (epoch : ℕ) : ℚ :=
  (stepState s epoch).momentum

/-- RBM.step (src/RBM_2.py lines 212-235): derive the Gibbs-step count and
learning rate, apply the momentum switch, and run contrastive divergence with
`training=True`. -/
def step {nv nh N : ℕ} (s : RBMState nv nh)
    (input_data : Matrix (Fin N) (Fin nv) ℚ) (epoch num_epochs : ℕ)
    (uh0 : Matrix (Fin N) (Fin nh) ℚ)
    (uv : ℕ → Matrix (Fin N) (Fin nv) ℚ) (uh : ℕ → Matrix (Fin N) (Fin nh) ℚ) :
    Option (ℚ × ℚ × RBMState nv nh) :=
  contrastive_divergence (stepState s epoch) input_data true
    (gibbsStepCount s.increase_to_cd_k s.k epoch num_epochs)
    (stepLR s epoch) uh0 uv uh

/-- The epoch loop of RBM.train (src/RBM_2.py lines 253-268) restricted to a
dataloader yielding one batch per epoch: `trainEpochs s0 num_epochs B U0 UV
UH e` is the state after the epochs `1, …, e` have each run `step` on the
batch `B epoch`, with `U0 epoch` / `UV epoch` / `UH epoch` the uniform draws
consumed inside that step.  `none` propagates a failing step. -/
def trainEpochs {nv nh N : ℕ} (s0 : RBMState nv nh) (num_epochs : ℕ)
    (B : ℕ → Matrix (Fin N) (Fin nv) ℚ)
    (U0 : ℕ → Matrix (Fin N) (Fin nh) ℚ)
    (UV : ℕ → ℕ → Matrix (Fin N) (Fin nv) ℚ)
    (UH : ℕ → ℕ → Matrix (Fin N) (Fin nh) ℚ) :
    ℕ → Option (RBMState nv nh)
  | 0 => some s0
  | e + 1 => (trainEpochs s0 num_epochs B U0 UV UH e).bind fun t =>
      (step t (B (e + 1)) (e + 1) num_epochs (U0 (e + 1)) (UV (e + 1))
        (UH (e + 1))).map fun r => r.2.2

/-- RBM.train (src/RBM_2.py lines 237-275): `self.batch_size = batch_size`
(line 245) and then the epoch loop over `range(1, num_epochs + 1)`. -/
def train {nv nh N : ℕ} (s : RBMState nv nh) (num_epochs batch_size : ℕ)
    (B : ℕ → Matrix (Fin N) (Fin nv) ℚ)
    (U0 : ℕ → Matrix (Fin N) (Fin nh) ℚ)
    (UV : ℕ → ℕ → Matrix (Fin N) (Fin nv) ℚ)
    (UH : ℕ → ℕ → Matrix (Fin N) (Fin nh) ℚ) :
    Option (RBMState nv nh) :=
  trainEpochs { s with batch_size := batch_size } num_epochs B U0 UV UH num_epochs

/-- Modelled acceptance behavior of RBM.__init__ (src/RBM_2.py lines 21-78):
the constructor stores every argument unchecked and validates nothing; the
only operations that can fail are
(a) in the default branch (lines 56-58), the tensor allocation
`torch.randn(visible_units, hidden_units)`, which raises exactly when a
requested dimension is negative (likewise the later `torch.zeros` calls);
(b) in the xavier branch (lines 59-64), first the Python division
`1.0 / (self.visible_units + self.hidden_units)`, which raises
ZeroDivisionError exactly when the two unit counts sum to zero, and then
the allocation `torch.rand(visible_units, hidden_units)`, which again
rejects a negative dimension.
Hence a call is accepted iff both unit counts are nonnegative and, when
`xavier_init` is set, their sum is nonzero — whatever the values of `k`,
the learning rate, the weight decay or the two momenta. -/
def rbmInitAccepts (visible_units hidden_units k : ℤ)
    (learning_rate weight_decay initial_momentum final_momentum : ℚ)
    (xavier_init : Bool) : Bool :=
  if xavier_init then
    decide (visible_units + hidden_units ≠ 0) &&
      decide (0 ≤ visible_units) && decide (0 ≤ hidden_units)
  else
    decide (0 ≤ visible_units) && decide (0 ≤ hidden_units)

/-! Concrete fixtures used by counterexamples and witnesses. -/

/-- The 1×1 all-zero matrix. -/
def zeroMat11 : Matrix (Fin 1) (Fin 1) ℚ := fun _ _ => 0

/-- The 1×1 all-one matrix. -/
def oneMat11 : Matrix (Fin 1) (Fin 1) ℚ := fun _ _ => 1

/-- The 1×1 matrix holding 1/2 (a uniform draw strictly inside (0,1)). -/
def halfMat11 : Matrix (Fin 1) (Fin 1) ℚ := fun _ _ => 1 / 2

/-- A stream of zero draw matrices. -/
def zeroStream11 : ℕ → Matrix (Fin 1) (Fin 1) ℚ := fun _ => zeroMat11

/-- A stream of 1/2 draw matrices. -/
def halfStream11 : ℕ → Matrix (Fin 1) (Fin 1) ℚ := fun _ => halfMat11

/-- A freshly constructed 1-visible/1-hidden RBM with zero weights,
momentum 1/2, final momentum 9/10, k = 1, learning rate 1/10, no decay, no
weight decay, no Gibbs ramp. -/
def s11 : RBMState 1 1 := RBM_init 1 1 zeroMat11 1 (1 / 10) false 0 (1 / 2) (9 / 10) false

/-- An RBM with the Gibbs ramp enabled and k = 4, for the C7 witness. -/
def w7state : RBMState 1 1 := { s11 with increase_to_cd_k := true, k := 4 }

/-- An RBM constructed with momenta 2 — far outside [0,1) — accepted without
complaint. -/
def c9state : RBMState 1 1 := RBM_init 1 1 zeroMat11 1 (1 / 10) false 0 2 2 false

/-- The state `train` leaves behind after one epoch on `c9state`: only the
batch-size attribute changed. -/
def c9final : RBMState 1 1 := { c9state with batch_size := 1 }

/-- `s11` with a nonzero gradient accumulator (for the C8 counterexample). -/
def s8b : RBMState 1 1 := { s11 with grad_update := oneMat11 }

/-- The result triple of an evaluation-mode contrastive-divergence call on
`s11` (for the C3 witness). -/
def cdEvalR : ℚ × ℚ × RBMState 1 1 :=
  (contrastive_divergence s11 zeroMat11 false 1 0 halfMat11 halfStream11 halfStream11).getD
    (0, 0, s11)

/-- The result triple of a training-mode contrastive-divergence call on
`s11` (for the C2 witness). -/
def c2wr : ℚ × ℚ × RBMState 1 1 :=
  (contrastive_divergence s11 zeroMat11 true 1 1 halfMat11 halfStream11 halfStream11).getD
    (0, 0, s11)

/-- A 1-row batch with two visible features, holding the sample (1, 0). -/
def c1input : Matrix (Fin 1) (Fin 2) ℚ := fun _ j => if j = 0 then 1 else 0

/-- A 2×1 zero weight matrix. -/
def c1W : Matrix (Fin 2) (Fin 1) ℚ := fun _ _ => 0

/-- A visible bias (2, 0): makes the reconstruction differ from the input in
exactly one feature by 1. -/
def c1vb : Fin 2 → ℚ := fun j => if j = 0 then 2 else 0

/-- A 2-visible/1-hidden RBM whose reconstruction of `c1input` has total
squared error 1 (for the C1 counterexample). -/
def c1state : RBMState 2 1 :=
  { RBM_init 2 1 c1W 1 (1 / 10) false 0 (1 / 2) (9 / 10) false with v_bias := c1vb }

/-- A stream of 1/2 draw matrices of shape 1×2. -/
def c1uvStream : ℕ → Matrix (Fin 1) (Fin 2) ℚ := fun _ _ _ => 1 / 2

/-- The result triple of the C1 evaluation call on `c1state`. -/
def c1r : ℚ × ℚ × RBMState 2 1 :=
  (contrastive_divergence c1state c1input false 1 0 halfMat11 c1uvStream halfStream11).getD
    (0, 0, c1state)

/-- An RBM with weight 1, visible bias 1, zero momentum, zero weight decay
and STORED batch_size 2 (for the C2 counterexample, which feeds it a 1-row
batch). -/
def c2state : RBMState 1 1 :=
  { RBM_init 1 1 oneMat11 1 (1 / 10) false 0 0 (9 / 10) false with
      v_bias := fun _ => 1, batch_size := 2 }

/-- One batch of zeros per epoch, for the C6 witness training run. -/
def w6B : ℕ → Matrix (Fin 1) (Fin 1) ℚ := fun _ => zeroMat11

/-- One positive-phase draw of 1/2 per epoch, for the C6 witness. -/
def w6U0 : ℕ → Matrix (Fin 1) (Fin 1) ℚ := fun _ => halfMat11

/-- Per-epoch draw streams of 1/2, for the C6 witness. -/
def w6UV : ℕ → ℕ → Matrix (Fin 1) (Fin 1) ℚ := fun _ => halfStream11

/-- The state of the C6 witness run after its first five epochs. -/
def w6s5 : RBMState 1 1 := (trainEpochs s11 10 w6B w6U0 w6UV w6UV 5).getD s11

/-! ### C4 — sampling -/

/-- C4 counterexample: the claim also asserts that an element with
probability p = 0.0 always samples to 0.0 whenever the uniform draw lies in
[0,1).  The draw u = 0 lies in [0,1), yet `sampling` compares with `p >= u`,
so 0 >= 0 holds and the sample is 1.0, not 0.0. -/
theorem sampling_zero_draw_cex :
    (0 : ℚ) ≤ zeroMat11 0 0 ∧ zeroMat11 0 0 < 1 ∧
    sampling zeroMat11 zeroMat11 0 0 = 1 ∧ ((1 : ℚ) ≠ 0) := by decide

/-- C4 (amended): each sampled element is 1.0 if p ≥ u and 0.0 otherwise; if
p = 1.0 and the draw lies in [0,1) the sample is always 1.0; if p = 0.0 the
sample is 0.0 for every draw in (0,1), while the boundary draw u = 0 yields
1.0 (see the counterexample). -/
theorem sampling_characterization {N M : ℕ} (prob u : Matrix (Fin N) (Fin M) ℚ)
    (i : Fin N) (j : Fin M) :
    sampling prob u i j = (if u i j ≤ prob i j then 1 else 0) ∧
    (prob i j = 1 → 0 ≤ u i j → u i j < 1 → sampling prob u i j = 1) ∧
    (prob i j = 0 → 0 < u i j → u i j < 1 → sampling prob u i j = 0) := by
  refine ⟨rfl, ?_, ?_⟩
  · intro h1 _ h3
    have : u i j ≤ prob i j := by rw [h1]; exact le_of_lt h3
    simp [sampling, this]
  · intro h1 h2 _
    have : ¬ u i j ≤ prob i j := by rw [h1]; exact not_le.mpr h2
    simp [sampling, this]

/-- Witness for `sampling_characterization` at p = 1, u = 1/2. -/
theorem sampling_characterization_witness :
    (oneMat11 0 0 = 1 ∧ (0 : ℚ) ≤ halfMat11 0 0 ∧ halfMat11 0 0 < 1) ∧
    sampling oneMat11 halfMat11 0 0 = 1 :=
  ⟨by decide, (sampling_characterization oneMat11 halfMat11 0 0).2.1
    (by decide) (by decide) (by decide)⟩

/-! ### C5 — to_hidden -/

/-- C5: for every weight matrix, hidden bias and input, the activation
returned by `to_hidden` equals max(0, V·W + c) elementwise (the bias
broadcast across batch rows), and every element of the returned sample is
exactly 0 or 1. -/
theorem to_hidden_relu_and_binary {nv nh N : ℕ} (s : RBMState nv nh)
    (X : Matrix (Fin N) (Fin nv) ℚ) (u : Matrix (Fin N) (Fin nh) ℚ)
    (i : Fin N) (j : Fin nh) :
    (to_hidden s X u).1 i j = max 0 ((X * s.W) i j + s.h_bias j) ∧
    ((to_hidden s X u).2 i j = 0 ∨ (to_hidden s X u).2 i j = 1) := by
  constructor
  · rfl
  · rw [show (to_hidden s X u).2 = sampling (to_hidden s X u).1 u from rfl]
    simp only [sampling]
    split
    · exact Or.inr rfl
    · exact Or.inl rfl

/-! ### C7 — Gibbs-step schedule -/

/-- C7: for every epoch in 1..num_epochs, the training step runs
contrastive divergence with `gibbsStepCount` Gibbs steps, which equals
ceil((epoch / num_epochs) · k) when `increase_to_cd_k` is set and k
otherwise. -/
theorem gibbs_step_schedule {nv nh N : ℕ} (s : RBMState nv nh)
    (input_data : Matrix (Fin N) (Fin nv) ℚ) (epoch num_epochs : ℕ)
    (uh0 : Matrix (Fin N) (Fin nh) ℚ)
    (uv : ℕ → Matrix (Fin N) (Fin nv) ℚ) (uh : ℕ → Matrix (Fin N) (Fin nh) ℚ)
    (h1 : 1 ≤ epoch) (h2 : epoch ≤ num_epochs) :
    step s input_data epoch num_epochs uh0 uv uh =
      contrastive_divergence (stepState s epoch) input_data true
        (gibbsStepCount s.increase_to_cd_k s.k epoch num_epochs)
        (stepLR s epoch) uh0 uv uh ∧
    (s.increase_to_cd_k = true →
      ((gibbsStepCount s.increase_to_cd_k s.k epoch num_epochs : ℕ) : ℤ) =
        Int.ceil (((epoch : ℚ) / (num_epochs : ℚ)) * (s.k : ℚ))) ∧
    (s.increase_to_cd_k = false →
      gibbsStepCount s.increase_to_cd_k s.k epoch num_epochs = s.k) := by
  refine ⟨rfl, ?_, ?_⟩
  · intro hinc
    have hnn : (0 : ℚ) ≤ ((epoch : ℚ) / (num_epochs : ℚ)) * (s.k : ℚ) := by positivity
    simp only [gibbsStepCount, hinc, if_true]
    exact Int.toNat_of_nonneg (Int.ceil_nonneg hnn)
  · intro hinc
    simp [gibbsStepCount, hinc]

/-- Witness for `gibbs_step_schedule`: k = 4, num_epochs = 10, epoch = 3
gives ceil(0.3 · 4) = 2 Gibbs steps. -/
theorem gibbs_step_schedule_witness :
    ((1 : ℕ) ≤ 3 ∧ (3 : ℕ) ≤ 10) ∧
    ((gibbsStepCount w7state.increase_to_cd_k w7state.k 3 10 : ℕ) : ℤ) =
      Int.ceil ((((3 : ℕ) : ℚ) / ((10 : ℕ) : ℚ)) * (w7state.k : ℚ)) ∧
    gibbsStepCount w7state.increase_to_cd_k w7state.k 3 10 = 2 := by
  refine ⟨by decide, ?_, by decide⟩
  exact (gibbs_step_schedule w7state zeroMat11 3 10 zeroMat11 zeroStream11
    zeroStream11 (by decide) (by decide)).2.1 rfl

/-! ### C9 — hyperparameter validation -/

/-- C9 counterexample: invalid hyperparameters are not rejected.
Construction with visible_units = 0, k = 0, a negative learning rate, a
negative weight decay and momenta 2 is accepted (in the default and in the
xavier initialization mode alike); so is construction with momenta 2 alone;
and a training call on the momentum-2 model runs to completion (returning a
final state, with only the batch-size attribute changed) instead of
failing. -/
theorem hyperparameter_validation_cex :
    rbmInitAccepts 0 64 0 (-1) (-1) 2 2 false = true ∧
    rbmInitAccepts 0 64 0 (-1) (-1) 2 2 true = true ∧
    rbmInitAccepts 1 1 1 (1 / 10) 0 2 2 false = true ∧
    (train c9state 1 1 (fun _ => zeroMat11) (fun _ => halfMat11)
      (fun _ => halfStream11) (fun _ => halfStream11)).isSome = true ∧
    (train c9state 1 1 (fun _ => zeroMat11) (fun _ => halfMat11)
      (fun _ => halfStream11) (fun _ => halfStream11)).getD c9state = c9final := by
  refine ⟨by decide, by decide, by decide, by decide, by decide⟩

/-- C9 (amended): RBM construction performs no hyperparameter validation;
a call is accepted exactly when the two tensor dimensions are nonnegative
(the incidental failure mode of torch.randn/torch.rand/torch.zeros) and,
in xavier initialization mode, their sum is nonzero (else the Python
division 1.0/(visible_units + hidden_units) on line 62 raises
ZeroDivisionError) — independently of k, the learning rate, the weight
decay and the momenta; training performs no validation either. -/
theorem init_accepts_iff_nonneg_dims (visible_units hidden_units k : ℤ)
    (learning_rate weight_decay initial_momentum final_momentum : ℚ)
    (xavier_init : Bool) :
    rbmInitAccepts visible_units hidden_units k learning_rate weight_decay
      initial_momentum final_momentum xavier_init = true ↔
    (0 ≤ visible_units ∧ 0 ≤ hidden_units ∧
      (xavier_init = true → visible_units + hidden_units ≠ 0)) := by
  cases xavier_init <;> simp [rbmInitAccepts] <;> tauto

/-! ### C10 — reconstruct -/

/-- C10: `reconstruct` is well-defined only for n_gibbs ≥ 1: with n_gibbs = 0
its loop never binds the result variables and the call fails (`none`), while
for every n_gibbs ≥ 1 it returns the final visible probabilities and sample;
the operation only reads the parameters (its embedding takes the state and
returns no state, matching a method body that never assigns attributes). -/
theorem reconstruct_zero_gibbs {nv nh N : ℕ} (s : RBMState nv nh)
    (X : Matrix (Fin N) (Fin nv) ℚ)
    (uv : ℕ → Matrix (Fin N) (Fin nv) ℚ) (uh : ℕ → Matrix (Fin N) (Fin nh) ℚ) :
    reconstruct s X uv uh 0 = none ∧
    ∀ n : ℕ, 1 ≤ n → ∃ r, reconstruct s X uv uh n = some r := by
  refine ⟨rfl, ?_⟩
  intro n hn
  cases n with
  | zero => exact absurd hn (by decide)
  | succ m => exact ⟨reconstruct_chain s uv uh X m, rfl⟩

/-- Witness for `reconstruct_zero_gibbs` at n_gibbs = 1. -/
theorem reconstruct_zero_gibbs_witness :
    (1 : ℕ) ≤ 1 ∧ ∃ r, reconstruct s11 zeroMat11 zeroStream11 zeroStream11 1 = some r :=
  ⟨by decide, (reconstruct_zero_gibbs s11 zeroMat11 zeroStream11 zeroStream11).2 1 (by decide)⟩

/-! ### Helper lemmas shared by several claims -/

/-- With training = false, contrastive divergence hands back exactly the
state it was given. -/
theorem contrastive_divergence_false_state {nv nh N : ℕ} (s : RBMState nv nh)
    (input_data : Matrix (Fin N) (Fin nv) ℚ) (n : ℕ) (lr : ℚ)
    (uh0 : Matrix (Fin N) (Fin nh) ℚ)
    (uv : ℕ → Matrix (Fin N) (Fin nv) ℚ) (uh : ℕ → Matrix (Fin N) (Fin nh) ℚ) :
    (contrastive_divergence s input_data false (n + 1) lr uh0 uv uh).map
      (fun r => r.2.2) = some s := rfl

/-- With training = true, the state returned by contrastive divergence is the
one produced by the update block. -/
theorem contrastive_divergence_true_state {nv nh N : ℕ} (s : RBMState nv nh)
    (input_data : Matrix (Fin N) (Fin nv) ℚ) (n : ℕ) (lr : ℚ)
    (uh0 : Matrix (Fin N) (Fin nh) ℚ)
    (uv : ℕ → Matrix (Fin N) (Fin nv) ℚ) (uh : ℕ → Matrix (Fin N) (Fin nh) ℚ) :
    (contrastive_divergence s input_data true (n + 1) lr uh0 uv uh).map
      (fun r => r.2.2) = some (apply_update s input_data lr uh0 uv uh n) := rfl

/-- The error component returned by contrastive divergence, for either value
of the training flag. -/
theorem contrastive_divergence_error {nv nh N : ℕ} (s : RBMState nv nh)
    (input_data : Matrix (Fin N) (Fin nv) ℚ) (training : Bool) (n : ℕ) (lr : ℚ)
    (uh0 : Matrix (Fin N) (Fin nh) ℚ)
    (uv : ℕ → Matrix (Fin N) (Fin nv) ℚ) (uh : ℕ → Matrix (Fin N) (Fin nh) ℚ) :
    (contrastive_divergence s input_data training (n + 1) lr uh0 uv uh).map
      (fun r => r.1) =
    some ((∑ j, ∑ i, (input_data i j -
      negative_visible_probabilities s input_data uh0 uv uh n i j) ^ 2) / (nv : ℚ)) := by
  cases training <;> rfl

/-- Contrastive divergence never touches the momentum or final-momentum
attributes (the update block only writes W, the biases and the
accumulators). -/
theorem contrastive_divergence_momentum_fields {nv nh N : ℕ} (s : RBMState nv nh)
    (input_data : Matrix (Fin N) (Fin nv) ℚ) (training : Bool) (n : ℕ) (lr : ℚ)
    (uh0 : Matrix (Fin N) (Fin nh) ℚ)
    (uv : ℕ → Matrix (Fin N) (Fin nv) ℚ) (uh : ℕ → Matrix (Fin N) (Fin nh) ℚ)
    (r : ℚ × ℚ × RBMState nv nh)
    (h : contrastive_divergence s input_data training n lr uh0 uv uh = some r) :
    r.2.2.momentum = s.momentum ∧ r.2.2.final_momentum = s.final_momentum := by
  cases n with
  | zero => simp [contrastive_divergence] at h
  | succ m =>
    have h1 : (contrastive_divergence s input_data training (m + 1) lr uh0 uv uh).map
        (fun x => (x.2.2.momentum, x.2.2.final_momentum)) =
        some (s.momentum, s.final_momentum) := by
      cases training <;> rfl
    rw [h, Option.map_some'] at h1
    have h2 := Option.some.inj h1
    exact ⟨congrArg Prod.fst h2, congrArg Prod.snd h2⟩

/-- The momentum attributes of the state `stepState` passes to contrastive
divergence. -/
theorem stepState_momentum {nv nh : ℕ} (s : RBMState nv nh) (epoch : ℕ) :
    (stepState s epoch).momentum =
      (if 5 < epoch then s.final_momentum else s.momentum) ∧
    (stepState s epoch).final_momentum = s.final_momentum := by
  by_cases h : 5 < epoch <;> simp [stepState, h]

/-- Along the training loop the momentum attribute stays at its starting
value through epoch 5 and equals the final momentum from epoch 6 on; the
final-momentum attribute never changes. -/
theorem trainEpochs_momentum {nv nh N : ℕ} (s0 : RBMState nv nh) (num : ℕ)
    (B : ℕ → Matrix (Fin N) (Fin nv) ℚ) (U0 : ℕ → Matrix (Fin N) (Fin nh) ℚ)
    (UV : ℕ → ℕ → Matrix (Fin N) (Fin nv) ℚ) (UH : ℕ → ℕ → Matrix (Fin N) (Fin nh) ℚ) :
    ∀ (e : ℕ) (s' : RBMState nv nh), trainEpochs s0 num B U0 UV UH e = some s' →
      s'.momentum = (if e ≤ 5 then s0.momentum else s0.final_momentum) ∧
      s'.final_momentum = s0.final_momentum := by
  intro e
  induction e with
  | zero =>
    intro s' h
    rw [trainEpochs] at h
    have h2 := Option.some.inj h
    rw [← h2]
    simp
  | succ m ih =>
    intro s' h
    rw [trainEpochs] at h
    cases hm : trainEpochs s0 num B U0 UV UH m with
    | none => rw [hm] at h; simp at h
    | some t =>
      rw [hm] at h
      rw [Option.some_bind] at h
      cases hs : step t (B (m + 1)) (m + 1) num (U0 (m + 1)) (UV (m + 1)) (UH (m + 1)) with
      | none => rw [hs] at h; simp at h
      | some r =>
        rw [hs, Option.map_some'] at h
        have hrs := Option.some.inj h
        have hcd := contrastive_divergence_momentum_fields (stepState t (m + 1))
          (B (m + 1)) true (gibbsStepCount t.increase_to_cd_k t.k (m + 1) num)
          (stepLR t (m + 1)) (U0 (m + 1)) (UV (m + 1)) (UH (m + 1)) r hs
        rcases ih t hm with ⟨ih1, ih2⟩
        rcases stepState_momentum t (m + 1) with ⟨hss1, hss2⟩
        rw [← hrs]
        constructor
        · rw [hcd.1, hss1, ih1, ih2]
          by_cases h5 : m + 1 ≤ 5
          · rw [if_neg (by omega : ¬ 5 < m + 1), if_pos (by omega : m ≤ 5), if_pos h5]
          · by_cases h6 : m ≤ 5
            · rw [if_pos (by omega : 5 < m + 1), if_neg h5]
            · rw [if_pos (by omega : 5 < m + 1), if_neg h5]
        · rw [hcd.2, hss2, ih2]

/-! ### C3 — evaluation does not mutate -/

/-- C3: contrastive divergence with training = false, for any Gibbs-step
count n+1 ≥ 1, leaves W, the visible and hidden biases and the three
momentum accumulators unchanged — in particular via reconstruction_error. -/
theorem cd_eval_no_mutation {nv nh N : ℕ} (s : RBMState nv nh)
    (input_data : Matrix (Fin N) (Fin nv) ℚ) (n : ℕ) (lr : ℚ)
    (uh0 : Matrix (Fin N) (Fin nh) ℚ)
    (uv : ℕ → Matrix (Fin N) (Fin nv) ℚ) (uh : ℕ → Matrix (Fin N) (Fin nh) ℚ) :
    (∀ r, contrastive_divergence s input_data false (n + 1) lr uh0 uv uh = some r →
      r.2.2.W = s.W ∧ r.2.2.v_bias = s.v_bias ∧ r.2.2.h_bias = s.h_bias ∧
      r.2.2.grad_update = s.grad_update ∧ r.2.2.v_bias_update = s.v_bias_update ∧
      r.2.2.h_bias_update = s.h_bias_update) ∧
    (∀ r, reconstruction_error s input_data uh0 uv uh = some r → r.2.2 = s) := by
  constructor
  · intro r h
    have h1 := contrastive_divergence_false_state s input_data n lr uh0 uv uh
    rw [h, Option.map_some'] at h1
    have h2 := Option.some.inj h1
    rw [h2]
    exact ⟨rfl, rfl, rfl, rfl, rfl, rfl⟩
  · intro r h
    have h1 := contrastive_divergence_false_state s input_data 0 (1 / 1000) uh0 uv uh
    rw [show reconstruction_error s input_data uh0 uv uh =
      contrastive_divergence s input_data false (0 + 1) (1 / 1000) uh0 uv uh from rfl] at h
    rw [h, Option.map_some'] at h1
    exact Option.some.inj h1

/-- Witness for `cd_eval_no_mutation` on a concrete state and batch. -/
theorem cd_eval_no_mutation_witness :
    contrastive_divergence s11 zeroMat11 false (0 + 1) 0 halfMat11 halfStream11 halfStream11 =
      some cdEvalR ∧
    (cdEvalR.2.2.W = s11.W ∧ cdEvalR.2.2.v_bias = s11.v_bias ∧
     cdEvalR.2.2.h_bias = s11.h_bias ∧ cdEvalR.2.2.grad_update = s11.grad_update ∧
     cdEvalR.2.2.v_bias_update = s11.v_bias_update ∧
     cdEvalR.2.2.h_bias_update = s11.h_bias_update) :=
  ⟨rfl, (cd_eval_no_mutation s11 zeroMat11 0 0 halfMat11 halfStream11 halfStream11).1
    cdEvalR rfl⟩

/-! ### C8 — reconstruction_error returns a pair -/

/-- C8 counterexample: `reconstruction_error` does not return a single
scalar.  Python's `return error, torch.sum(torch.abs(self.grad_update))`
(line 203) yields a pair: two models that agree on the reconstruction error
(both 0 here) but differ in their gradient accumulator return different
values, so the return value carries strictly more than the scalar error. -/
theorem reconstruction_error_scalar_cex :
    (reconstruction_error s11 zeroMat11 halfMat11 halfStream11 halfStream11).map
      (fun r => (r.1, r.2.1)) = some (0, 0) ∧
    (reconstruction_error s8b zeroMat11 halfMat11 halfStream11 halfStream11).map
      (fun r => (r.1, r.2.1)) = some (0, 1) ∧
    ((0 : ℚ), (0 : ℚ)) ≠ ((0 : ℚ), (1 : ℚ)) := by
  refine ⟨by decide, by decide, by decide⟩

/-- C8 (amended): `reconstruction_error(batch)` returns a pair whose first
component is the scalar reconstruction error and whose second component is
the gradient-magnitude diagnostic Σ|ΔW|, leaving the state unchanged. -/
theorem reconstruction_error_returns_pair {nv nh N : ℕ} (s : RBMState nv nh)
    (data : Matrix (Fin N) (Fin nv) ℚ) (uh0 : Matrix (Fin N) (Fin nh) ℚ)
    (uv : ℕ → Matrix (Fin N) (Fin nv) ℚ) (uh : ℕ → Matrix (Fin N) (Fin nh) ℚ) :
    ∃ e g, reconstruction_error s data uh0 uv uh = some (e, g, s) ∧
      e = (∑ j, ∑ i, (data i j -
        negative_visible_probabilities s data uh0 uv uh 0 i j) ^ 2) / (nv : ℚ) ∧
      g = ∑ i, ∑ j, |s.grad_update i j| :=
  ⟨_, _, rfl, rfl, rfl⟩

/-! ### C1 — the reconstruction error formula -/

/-- C1 counterexample: the code sums the squared differences over the batch
axis (`dim=0`) and then averages over the features, not the other way
around.  For a single-sample batch with visible_units = 2 whose squared
reconstruction difference totals 1, the code returns 1/2 (the total divided
by the 2 features), while the claim prescribes 1 (the per-sample sums
averaged over the 1-row batch axis). -/
theorem cd_error_batch_mean_cex :
    (contrastive_divergence c1state c1input false 1 0 halfMat11 c1uvStream halfStream11).map
      (fun r => r.1) = some (1 / 2) ∧
    (∑ i : Fin 1, ∑ j : Fin 2, (c1input i j -
        negative_visible_probabilities c1state c1input halfMat11 c1uvStream halfStream11 0 i j) ^ 2) /
      ((1 : ℕ) : ℚ) = 1 ∧
    ((1 : ℚ) / 2) ≠ 1 := by
  refine ⟨by decide, by decide, by decide⟩

/-- C1 (amended): for every batch, training flag and Gibbs-step count
n+1 ≥ 1, the error returned by contrastive divergence is the squared
elementwise difference between the batch and the negative-phase visible
reconstruction, summed per feature over the batch axis and then averaged
over the visible_units features — the total sum of squares divided by
visible_units, not by the batch size. -/
theorem cd_error_mean_over_features {nv nh N : ℕ} (s : RBMState nv nh)
    (input_data : Matrix (Fin N) (Fin nv) ℚ) (training : Bool) (n : ℕ) (lr : ℚ)
    (uh0 : Matrix (Fin N) (Fin nh) ℚ)
    (uv : ℕ → Matrix (Fin N) (Fin nv) ℚ) (uh : ℕ → Matrix (Fin N) (Fin nh) ℚ)
    (r : ℚ × ℚ × RBMState nv nh) (hnv : 0 < nv)
    (h : contrastive_divergence s input_data training (n + 1) lr uh0 uv uh = some r) :
    r.1 = (∑ j, ∑ i, (input_data i j -
      negative_visible_probabilities s input_data uh0 uv uh n i j) ^ 2) / (nv : ℚ) := by
  have h1 := contrastive_divergence_error s input_data training n lr uh0 uv uh
  rw [h, Option.map_some'] at h1
  exact Option.some.inj h1

/-- Witness for `cd_error_mean_over_features` on the 2-feature model. -/
theorem cd_error_mean_over_features_witness :
    0 < 2 ∧
    contrastive_divergence c1state c1input false (0 + 1) 0 halfMat11 c1uvStream halfStream11 =
      some c1r ∧
    c1r.1 = (∑ j : Fin 2, ∑ i : Fin 1, (c1input i j -
      negative_visible_probabilities c1state c1input halfMat11 c1uvStream halfStream11 0 i j) ^ 2) /
      ((2 : ℕ) : ℚ) :=
  ⟨by decide, rfl, cd_error_mean_over_features c1state c1input false 0 0 halfMat11
    c1uvStream halfStream11 c1r (by decide) rfl⟩

/-! ### C2 — the update rule and its divisor -/

/-- C2 counterexample: the update divisor is the stored `batch_size`
attribute (2 for `c2state`), not the actual number of rows of the batch
being processed (1 here).  The gradient step the code takes is -3/2 while
the claimed formula with divisor N = 1 prescribes -3; the visible-bias step
taken is -1/2 while the claimed mean over the batch prescribes -1. -/
theorem cd_update_divisor_cex :
    (contrastive_divergence c2state oneMat11 true 1 1 zeroMat11 zeroStream11 zeroStream11).map
      (fun r => r.2.2.grad_update 0 0) = some (-(3 / 2)) ∧
    c2state.momentum * c2state.grad_update 0 0 + 1 *
      ((positive_associations c2state oneMat11 zeroMat11 0 0 -
        negative_associations c2state oneMat11 zeroMat11 zeroStream11 zeroStream11 0 0 0) /
        ((1 : ℕ) : ℚ) - c2state.weight_decay * c2state.W 0 0) = -3 ∧
    (-(3 / 2) : ℚ) ≠ -3 ∧
    (contrastive_divergence c2state oneMat11 true 1 1 zeroMat11 zeroStream11 zeroStream11).map
      (fun r => r.2.2.v_bias_update 0) = some (-(1 / 2)) ∧
    c2state.momentum * c2state.v_bias_update 0 + 1 *
      ((∑ i : Fin 1, (oneMat11 i 0 -
        negative_visible_probabilities c2state oneMat11 zeroMat11 zeroStream11 zeroStream11 0 i 0)) /
        ((1 : ℕ) : ℚ)) = -1 ∧
    (-(1 / 2) : ℚ) ≠ -1 := by
  refine ⟨by decide, by decide, by decide, by decide, by decide, by decide⟩

/-- C2 (amended): the training update follows
ΔW ← m·ΔW + lr·(g / batch_size − λ·W) with W ← W + ΔW, and
Δb ← m·Δb + lr·(Σ over batch rows of (V0 − reconstruction)) / batch_size
with b ← b + Δb — where the divisor batch_size is the STORED attribute
`self.batch_size`, not the actual row count N of the batch processed. -/
theorem cd_update_rule_stored_batch_size {nv nh N : ℕ} (s : RBMState nv nh)
    (input_data : Matrix (Fin N) (Fin nv) ℚ) (n : ℕ) (lr : ℚ)
    (uh0 : Matrix (Fin N) (Fin nh) ℚ)
    (uv : ℕ → Matrix (Fin N) (Fin nv) ℚ) (uh : ℕ → Matrix (Fin N) (Fin nh) ℚ)
    (r : ℚ × ℚ × RBMState nv nh)
    (h : contrastive_divergence s input_data true (n + 1) lr uh0 uv uh = some r) :
    r.2.2 = apply_update s input_data lr uh0 uv uh n ∧
    r.2.2.grad_update = s.momentum • s.grad_update +
      lr • (((s.batch_size : ℚ))⁻¹ • (positive_associations s input_data uh0 -
        negative_associations s input_data uh0 uv uh n) - s.weight_decay • s.W) ∧
    r.2.2.W = s.W + r.2.2.grad_update ∧
    r.2.2.v_bias_update = (fun j => s.momentum * s.v_bias_update j +
      lr * (∑ i, (input_data i j -
        negative_visible_probabilities s input_data uh0 uv uh n i j)) / (s.batch_size : ℚ)) ∧
    r.2.2.v_bias = (fun j => s.v_bias j + r.2.2.v_bias_update j) := by
  have h1 := contrastive_divergence_true_state s input_data n lr uh0 uv uh
  rw [h, Option.map_some'] at h1
  have h2 := Option.some.inj h1
  rw [h2]
  exact ⟨rfl, rfl, rfl, rfl, rfl⟩

/-- Witness for `cd_update_rule_stored_batch_size` on a concrete training
call. -/
theorem cd_update_rule_stored_batch_size_witness :
    contrastive_divergence s11 zeroMat11 true (0 + 1) 1 halfMat11 halfStream11 halfStream11 =
      some c2wr ∧
    (c2wr.2.2 = apply_update s11 zeroMat11 1 halfMat11 halfStream11 halfStream11 0 ∧
     c2wr.2.2.grad_update = s11.momentum • s11.grad_update +
       (1 : ℚ) • (((s11.batch_size : ℚ))⁻¹ • (positive_associations s11 zeroMat11 halfMat11 -
         negative_associations s11 zeroMat11 halfMat11 halfStream11 halfStream11 0) -
         s11.weight_decay • s11.W) ∧
     c2wr.2.2.W = s11.W + c2wr.2.2.grad_update ∧
     c2wr.2.2.v_bias_update = (fun j => s11.momentum * s11.v_bias_update j +
       (1 : ℚ) * (∑ i, (zeroMat11 i j -
         negative_visible_probabilities s11 zeroMat11 halfMat11 halfStream11 halfStream11 0 i j)) /
         (s11.batch_size : ℚ)) ∧
     c2wr.2.2.v_bias = (fun j => s11.v_bias j + c2wr.2.2.v_bias_update j)) :=
  ⟨rfl, cd_update_rule_stored_batch_size s11 zeroMat11 0 1 halfMat11 halfStream11
    halfStream11 c2wr rfl⟩

/-! ### C6 — the momentum schedule -/

/-- C6: in a training run started from a state whose momentum attribute is
m0, the momentum read by the accumulator blend of the step at epoch e is m0
for e ≤ 5 and the final momentum for e > 5; and the switch is permanent —
once the momentum attribute equals the final momentum, every later step
uses the final momentum, whatever its epoch. -/
theorem momentum_schedule {nv nh N : ℕ} (s0 : RBMState nv nh) (num : ℕ)
    (B : ℕ → Matrix (Fin N) (Fin nv) ℚ) (U0 : ℕ → Matrix (Fin N) (Fin nh) ℚ)
    (UV : ℕ → ℕ → Matrix (Fin N) (Fin nv) ℚ) (UH : ℕ → ℕ → Matrix (Fin N) (Fin nh) ℚ)
    (e : ℕ) (s' : RBMState nv nh) (m0 : ℚ)
    (hm : s0.momentum = m0) (he : 1 ≤ e)
    (h : trainEpochs s0 num B U0 UV UH (e - 1) = some s') :
    stepMomentumUsed s' e = (if e ≤ 5 then m0 else s0.final_momentum) ∧
    (∀ (t : RBMState nv nh) (epoch : ℕ), t.momentum = t.final_momentum →
      stepMomentumUsed t epoch = t.final_momentum) := by
  constructor
  · rcases trainEpochs_momentum s0 num B U0 UV UH (e - 1) s' h with ⟨h1, h2⟩
    have h3 := (stepState_momentum s' e).1
    unfold stepMomentumUsed
    rw [h3, h2, h1, hm]
    by_cases h5 : e ≤ 5
    · rw [if_neg (by omega : ¬ 5 < e), if_pos (by omega : e - 1 ≤ 5), if_pos h5]
    · rw [if_pos (by omega : 5 < e), if_neg h5]
  · intro t epoch hteq
    unfold stepMomentumUsed stepState
    split
    · rfl
    · exact hteq

/-- Witness for `momentum_schedule`: initial momentum 1/2, final momentum
9/10, epoch 6 — after the five epochs before it, the blend at epoch 6 reads
momentum 9/10, not 1/2. -/
theorem momentum_schedule_witness :
    s11.momentum = 1 / 2 ∧ (1 : ℕ) ≤ 6 ∧
    trainEpochs s11 10 w6B w6U0 w6UV w6UV (6 - 1) = some w6s5 ∧
    stepMomentumUsed w6s5 6 = 9 / 10 := by
  refine ⟨by decide, by decide, rfl, ?_⟩
  have h := (momentum_schedule s11 10 w6B w6U0 w6UV w6UV 6 w6s5 (1 / 2)
    (by decide) (by decide) rfl).1
  have h2 : (if (6 : ℕ) ≤ 5 then (1 / 2 : ℚ) else s11.final_momentum) = 9 / 10 := by decide
  exact h.trans h2

end RBM
